import Mathlib

/-!
Verification of the r2pipe.rs convenience layer (`src/r2.rs`) and the
transport contract it relies on.

The repository ships `src/lib.rs` and `src/r2.rs`.  The transport module
`r2pipe` and the data module `structs` are declared in `lib.rs` but their
sources are not present; where a claim depends on them the definitions
below are modelled from the specification and say so in their doc comment.

Modelling conventions:
* Rust `panic!` / `.unwrap()` on an `Err`/`None` is modelled by `Option`:
  a result of `none` means the program aborted.
* The external peer (the r2 process on the other end of the pipe) is
  modelled as a deterministic script of outcomes, one per `cmd` exchange.
* `serde_json` is an external dependency; `from_str` below is a small
  executable JSON parser standing in for it (integer numerals only, the
  common string escapes), enough to decide the claims at hand.
* Rust `u64` is modelled as `Nat` (no claim involves overflow).
-/

namespace R2rs

/-- Errors of the transport layer, from the specification taxonomy:
`TransportError` for pipe/stream failures, `ClosedChannelError` for
operations after close. -/
inductive PipeError where
  | transport
  | closedChannel
deriving DecidableEq, Repr

/-- Error raised by frame decoding when the stream ends before the NUL
terminator (specification section 4.1). -/
inductive TransportError where
  | eofBeforeTerminator
deriving DecidableEq, Repr

/-- Opaque stand-in for `serde_json::Error`: the parse failed. -/
inductive ParseError where
  | invalid
deriving DecidableEq, Repr

/-- Configuration failure of the channel selector: neither a usable
inherited session nor an explicit target path. -/
inductive ConfigurationError where
  | noSessionNoTarget
deriving DecidableEq, Repr

/-- Embedding of `serde_json::Value`: a JSON document.  Numbers are
restricted to integers, which covers every numeral this code base
exchanges. -/
inductive Value where
  | null
  | bool (b : Bool)
  | num (n : Int)
  | str (s : String)
  | arr (elems : List Value)
  | obj (fields : List (String × Value))
deriving Repr

def lbrace : Char := Char.ofNat 123

def rbrace : Char := Char.ofNat 125

def isWsChar (c : Char) : Bool :=
  c = ' ' || c = '\n' || c = '\t' || c = '\r'

/-- Drop leading JSON whitespace. -/
def skipWs : List Char → List Char
  | [] => []
  | c :: cs => if isWsChar c then skipWs cs else c :: cs

/-- Read the body of a JSON string after the opening quote; returns the
decoded characters and the input after the closing quote. -/
def parseStringBody : List Char → Option (List Char × List Char)
  | [] => none
  | '"' :: rest => some ([], rest)
  | '\\' :: c :: rest =>
      let d := if c = 'n' then '\n' else if c = 't' then '\t'
               else if c = 'r' then '\r' else c
      (parseStringBody rest).map (fun p => (d :: p.1, p.2))
  | c :: rest => (parseStringBody rest).map (fun p => (c :: p.1, p.2))

/-- Read a run of decimal digits (at least one) as a natural number. -/
def parseDigits : List Char → Option (Nat × List Char)
  | input =>
    let ds := input.takeWhile Char.isDigit
    let rest := input.dropWhile Char.isDigit
    if ds.isEmpty then none
    else some (ds.foldl (fun acc c => 10 * acc + (c.toNat - 48)) 0, rest)

mutual

/-- Parse one JSON value from the input (fuel-indexed to make the
recursion structural). -/
def parseValueF : Nat → List Char → Option (Value × List Char)
  | 0, _ => none
  | Nat.succ fuel, input =>
    match skipWs input with
    | [] => none
    | 'n' :: 'u' :: 'l' :: 'l' :: rest => some (.null, rest)
    | 't' :: 'r' :: 'u' :: 'e' :: rest => some (.bool true, rest)
    | 'f' :: 'a' :: 'l' :: 's' :: 'e' :: rest => some (.bool false, rest)
    | '"' :: rest => (parseStringBody rest).map (fun p => (.str ⟨p.1⟩, p.2))
    | '-' :: rest => (parseDigits rest).map (fun p => (.num (-(p.1 : Int)), p.2))
    | c :: rest =>
      if c = lbrace then parseObjItems fuel rest
      else if c = '[' then parseArrItems fuel rest
      else if c.isDigit then
        (parseDigits (c :: rest)).map (fun p => (.num (p.1 : Int), p.2))
      else none

/-- Parse the items of a JSON array after the opening bracket. -/
def parseArrItems : Nat → List Char → Option (Value × List Char)
  | 0, _ => none
  | Nat.succ fuel, input =>
    match skipWs input with
    | ']' :: rest => some (.arr [], rest)
    | s =>
      match parseValueF fuel s with
      | none => none
      | some (v, after) => parseArrTail fuel [v] after

/-- Parse the remaining items of a JSON array after one value. -/
def parseArrTail : Nat → List Value → List Char → Option (Value × List Char)
  | 0, _, _ => none
  | Nat.succ fuel, acc, input =>
    match skipWs input with
    | ']' :: rest => some (.arr acc.reverse, rest)
    | ',' :: rest =>
      match parseValueF fuel rest with
      | none => none
      | some (v, after) => parseArrTail fuel (v :: acc) after
    | _ => none

/-- Parse the members of a JSON object after the opening brace. -/
def parseObjItems : Nat → List Char → Option (Value × List Char)
  | 0, _ => none
  | Nat.succ fuel, input =>
    match skipWs input with
    | '"' :: rest =>
      match parseStringBody rest with
      | none => none
      | some (key, afterKey) =>
        match skipWs afterKey with
        | ':' :: afterColon =>
          match parseValueF fuel afterColon with
          | none => none
          | some (v, after) => parseObjTail fuel [(⟨key⟩, v)] after
        | _ => none
    | c :: rest => if c = rbrace then some (.obj [], rest) else none
    | [] => none

/-- Parse the remaining members of a JSON object after one member. -/
def parseObjTail : Nat → List (String × Value) → List Char →
    Option (Value × List Char)
  | 0, _, _ => none
  | Nat.succ fuel, acc, input =>
    match skipWs input with
    | ',' :: rest =>
      match skipWs rest with
      | '"' :: afterQuote =>
        match parseStringBody afterQuote with
        | none => none
        | some (key, afterKey) =>
          match skipWs afterKey with
          | ':' :: afterColon =>
            match parseValueF fuel afterColon with
            | none => none
            | some (v, after) => parseObjTail fuel ((⟨key⟩, v) :: acc) after
          | _ => none
      | _ => none
    | c :: rest => if c = rbrace then some (.obj acc.reverse, rest) else none
    | [] => none

end

/-- Embedding of `serde_json::from_str`: parse a whole document, allowing
trailing whitespace only.  `none` models a `serde_json::Error`. -/
def from_str (s : String) : Option Value :=
  match parseValueF (2 * s.data.length + 2) s.data with
  | none => none
  | some (v, rest) => if skipWs rest = [] then some v else none

/-! ## Frame codec (transport layer)

The `r2pipe` module is declared in `lib.rs` but its source is not in the
repository; the frame codec below is modelled from the specification. -/

/-- Modelled from the spec: the missing `r2pipe` module's response-frame
decoder (section 4.1).  Reads bytes from the stream until a single NUL
(0x00) byte is observed; returns all bytes before the NUL, discarding the
NUL; fails with `TransportError` if the stream ends before a NUL. -/
def decode : List Nat → Except TransportError (List Nat)
  | [] => .error .eofBeforeTerminator
  | b :: bs => if b = 0 then .ok [] else (decode bs).map (fun p => b :: p)

/-! ## Channel selector (transport layer) -/

/-- Ambient configuration snapshot: the values found under the recognized
inherited-session keys, when present — a pair of descriptor identifiers
or a pair of named-pipe paths. -/
structure AmbientConfig where
  fdIn : Option String
  fdOut : Option String
  pathIn : Option String
  pathOut : Option String

/-- Handles identifying an inherited-session pipe: two parsed numeric
descriptors, or two named-pipe paths. -/
inductive ChannelHandles where
  | fds (rd wr : Nat)
  | pipes (rd wr : String)
deriving DecidableEq, Repr

/-- The channel variant the selector decides on. -/
inductive ChannelSpec where
  | inherited (h : ChannelHandles)
  | spawned (path : String)
deriving DecidableEq, Repr

/-- Parse a configuration value as a numeric descriptor handle: all
characters decimal digits, at least one. -/
def parseFd (s : String) : Option Nat :=
  match parseDigits s.data with
  | some (n, []) => some n
  | _ => none

/-- Modelled from the spec: validity of the inherited-session keys — both
descriptor values present and parsing as numeric handles, or else both
named-pipe paths present. -/
def inheritedHandles (a : AmbientConfig) : Option ChannelHandles :=
  match a.fdIn, a.fdOut with
  | some i, some o =>
    match parseFd i, parseFd o with
    | some ni, some no => some (.fds ni no)
    | _, _ =>
      match a.pathIn, a.pathOut with
      | some pi, some po => some (.pipes pi po)
      | _, _ => none
  | _, _ =>
    match a.pathIn, a.pathOut with
    | some pi, some po => some (.pipes pi po)
    | _, _ => none

/-- Modelled from the spec: the missing `r2pipe` module's channel
selector (section 4.4).  Inherited-session keys take precedence over an
explicit path; with neither, selection fails with `ConfigurationError`. -/
def select (explicitPath : Option String) (a : AmbientConfig) :
    Except ConfigurationError ChannelSpec :=
  match inheritedHandles a with
  | some h => .ok (.inherited h)
  | none =>
    match explicitPath with
    | some p => .ok (.spawned p)
    | none => .error .noSessionNoTarget

/-- Modelled from the spec: `R2Pipe::in_session()` — `Some` handles when
the ambient configuration identifies an inherited session. -/
def R2Pipe.in_session (a : AmbientConfig) : Option ChannelHandles :=
  inheritedHandles a

/-! ## Transport channel

The peer (the r2 process behind the pipe) is modelled as a deterministic
script: one pre-determined outcome per `cmd` exchange. -/

/-- Modelled from the spec: an open pipe to the engine, determinized by
the script of outcomes the peer will produce, one per exchange. -/
structure R2Pipe where
  responses : List (Except PipeError String)

/-- Modelled from the spec: `R2Pipe::cmd` writes one request and decodes
one response frame, returning every failure as a typed result
(`Result<String, TransportError|ClosedChannelError>`).  The next scripted
outcome is consumed; an exhausted script behaves as a closed channel. -/
def R2Pipe.cmd (p : R2Pipe) (_c : String) : Except PipeError (String × R2Pipe) :=
  match p.responses with
  | [] => .error .closedChannel
  | .ok s :: rest => .ok (s, ⟨rest⟩)
  | .error e :: _ => .error e

/-! ## The `R2` convenience facade (`src/r2.rs`, present in the repo) -/

/-- Embedding of `struct R2`: the pipe plus the scratch buffer for the
last received response. -/
structure R2 where
  pipe : R2Pipe
  readin : String

/-- Embedding of `R2::new`.  `open_pipe!` is part of the missing
`r2pipe` module, so its outcome is a parameter: `some` a pipe on success,
`none` on failure (the source calls `.unwrap()` on it, so a failure
panics — outer `none`). -/
def R2.new (path : Option String) (a : AmbientConfig) (openPipe : Option R2Pipe) :
    Option (Except String R2) :=
  if path.isNone && !(R2Pipe.in_session a).isSome then
    some (.error "No r2 session open. Please specify path!")
  else
    match openPipe with
    | some p => some (.ok { pipe := p, readin := "" })
    | none => none

/-- Embedding of `R2::in_session`. -/
def R2.in_session (a : AmbientConfig) : Bool :=
  match R2Pipe.in_session a with
  | some _ => true
  | none => false

/-- Embedding of `R2::send`: `self.readin = self.pipe.cmd(cmd).unwrap()`.
The `.unwrap()` panics on a pipe failure, modelled by `none`. -/
def R2.send (r : R2) (c : String) : Option R2 :=
  match r.pipe.cmd c with
  | .ok (s, p) => some { pipe := p, readin := s }
  | .error _ => none

/-- Embedding of `R2::flush`: `self.readin = String::from("")`. -/
def R2.flush (r : R2) : R2 :=
  { r with readin := "" }

/-- Embedding of `R2::recv`: clone the scratch buffer, flush it, return
the clone. -/
def R2.recv (r : R2) : String × R2 :=
  let res := r.readin
  let r1 := r.flush
  (res, r1)

/-- Embedding of `.replace("\n", "")`: a single-character pattern with an
empty replacement deletes every occurrence of that character. -/
def removeNewlines (s : String) : String :=
  ⟨s.data.filter (fun c => c != '\n')⟩

/-- Embedding of `R2::recv_json`: strip newlines from the received text,
substitute the empty object for an empty string, parse, `.unwrap()`.
The `.unwrap()` panics on a parse failure, modelled by `none` in the
first component. -/
def R2.recv_json (r : R2) : Option Value × R2 :=
  let p := r.recv
  let res0 := removeNewlines p.1
  let res := if res0 = "" then "\x7b\x7d" else res0
  (from_str res, p.2)

/-- Embedding of `R2::close`: `self.send("q!")`. -/
def R2.close (r : R2) : Option R2 :=
  r.send "q!"

/-! ## Typed wrappers used by `fn_list` and `locals_of`

`structs.rs` is declared in `lib.rs` but absent from the repository, so
`LCallInfo` and `LVarInfo` are modelled opaquely as raw JSON values;
`FunctionInfo_` and `FunctionInfo` are present in `r2.rs` and embedded
field by field. -/

/-- Modelled from the spec: `structs::LCallInfo`, opaque here — any JSON
value is accepted for it. -/
def LCallInfo := Value

/-- Modelled from the spec: `structs::LVarInfo`, opaque here — any JSON
value is accepted for it. -/
def LVarInfo := Value

/-- Embedding of `t_structs::FunctionInfo_` from `r2.rs`. -/
structure FunctionInfo_ where
  callrefs : Option (List LCallInfo)
  calltype : Option String
  codexrefs : Option (List LCallInfo)
  datarefs : Option (List Nat)
  dataxrefs : Option (List Nat)
  name : Option String
  offset : Option Nat
  realsz : Option Nat
  size : Option Nat
  ftype : Option String

/-- Embedding of `structs::FunctionInfo` (same fields plus `locals`), as
witnessed by the `From` impl in `r2.rs`. -/
structure FunctionInfo where
  callrefs : Option (List LCallInfo)
  calltype : Option String
  codexrefs : Option (List LCallInfo)
  datarefs : Option (List Nat)
  dataxrefs : Option (List Nat)
  name : Option String
  offset : Option Nat
  realsz : Option Nat
  size : Option Nat
  ftype : Option String
  locals : Option (List LVarInfo)

/-- Embedding of `impl From<&FunctionInfo_> for FunctionInfo`: copy every
field, `locals` starts out `None`. -/
def FunctionInfo.fromInfo (f : FunctionInfo_) : FunctionInfo :=
  { callrefs := f.callrefs, calltype := f.calltype, codexrefs := f.codexrefs
    datarefs := f.datarefs, dataxrefs := f.dataxrefs, name := f.name
    offset := f.offset, realsz := f.realsz, size := f.size
    ftype := f.ftype, locals := none }

/-- First value stored under a key in a decoded JSON object. -/
def lookupField : List (String × Value) → String → Option Value
  | [], _ => none
  | (k, v) :: rest, key => if k = key then some v else lookupField rest key

/-- Decode an optional struct field the way serde's derive does: an
absent key or a JSON `null` gives `None`, a present value must decode. -/
def fieldOpt {α : Type} (dec : Value → Option α)
    (kvs : List (String × Value)) (key : String) : Option (Option α) :=
  match lookupField kvs key with
  | none => some none
  | some .null => some none
  | some v => (dec v).map some

/-- Decode a JSON string. -/
def decStr : Value → Option String
  | .str s => some s
  | _ => none

/-- Decode a JSON number as an unsigned integer (`u64`). -/
def decNat : Value → Option Nat
  | .num n => if 0 ≤ n then some n.toNat else none
  | _ => none

/-- Decode a JSON array element-wise. -/
def decList {α : Type} (dec : Value → Option α) : Value → Option (List α)
  | .arr xs => xs.mapM dec
  | _ => none

/-- Decode one `FunctionInfo_` from a JSON object (model of the serde
derive for `t_structs::FunctionInfo_`). -/
def decodeFunctionInfo (v : Value) : Option FunctionInfo_ :=
  match v with
  | .obj kvs => do
    let callrefs ← fieldOpt (decList some) kvs "callrefs"
    let calltype ← fieldOpt decStr kvs "calltype"
    let codexrefs ← fieldOpt (decList some) kvs "codexrefs"
    let datarefs ← fieldOpt (decList decNat) kvs "datarefs"
    let dataxrefs ← fieldOpt (decList decNat) kvs "dataxrefs"
    let name ← fieldOpt decStr kvs "name"
    let offset ← fieldOpt decNat kvs "offset"
    let realsz ← fieldOpt decNat kvs "realsz"
    let size ← fieldOpt decNat kvs "size"
    let ftype ← fieldOpt decStr kvs "ftype"
    pure ⟨callrefs, calltype, codexrefs, datarefs, dataxrefs, name,
          offset, realsz, size, ftype⟩
  | _ => none

/-- Model of `serde_json::from_str::<Vec<FunctionInfo_>>`. -/
def parseFunctionInfoList (s : String) : Except ParseError (List FunctionInfo_) :=
  match from_str s with
  | some (.arr xs) =>
    match xs.mapM decodeFunctionInfo with
    | some fs => .ok fs
    | none => .error .invalid
  | _ => .error .invalid

/-- Model of `serde_json::from_str::<Vec<LVarInfo>>`: a JSON array whose
elements are taken as-is (`LVarInfo` being opaque). -/
def parseLocals (s : String) : Except ParseError (List LVarInfo) :=
  match from_str s with
  | some (.arr xs) => .ok xs
  | _ => .error .invalid

/-- Embedding of `R2::locals_of`: send `afvbj @ location`, receive, parse
as a list of local variables.  `none` models a panic inside `send`. -/
def R2.locals_of (r : R2) (location : Nat) : Option (Except ParseError (List LVarInfo) × R2) :=
  match r.send ("afvbj @ " ++ toString location) with
  | none => none
  | some r1 =>
    let p := r1.recv
    some (parseLocals p.1, p.2)

/-- Embedding of the `for f in fns.iter_mut()` loop of `R2::fn_list`:
fetch each entry's locals (`f.offset.unwrap()` panics on a missing
offset — `none`); a failed locals parse sets `locals` to `Some(vec![])`,
a successful one stores the parsed list. -/
def fillLocals : List FunctionInfo → R2 → Option (List FunctionInfo × R2)
  | [], r => some ([], r)
  | f :: fs, r =>
    match f.offset with
    | none => none
    | some off =>
      match r.locals_of off with
      | none => none
      | some (res, r1) =>
        let f1 := match res with
          | .ok v => { f with locals := some v }
          | .error _ => { f with locals := some [] }
        match fillLocals fs r1 with
        | none => none
        | some (fs1, r2) => some (f1 :: fs1, r2)

/-- Embedding of `R2::fn_list`: send `aflj`, receive, parse the function
list, convert each entry, then fill in every entry's locals. -/
def R2.fn_list (r : R2) : Option (Except ParseError (List FunctionInfo) × R2) :=
  match r.send "aflj" with
  | none => none
  | some r1 =>
    let p := r1.recv
    match parseFunctionInfoList p.1 with
    | .error e => some (.error e, p.2)
    | .ok finfo =>
      match fillLocals (finfo.map FunctionInfo.fromInfo) p.2 with
      | none => none
      | some (fns, r2) => some (.ok fns, r2)

/-! ## Theorems -/

/-- Claim C1, counterexample: a transport failure during the exchange is
not returned from `R2::send` as a typed result — `send` unwraps it and
the program aborts (`none`), contradicting the claim that no failure
terminates the program. -/
theorem send_panics_on_failure_cex :
    R2.send ⟨⟨[.error .transport]⟩, ""⟩ "x" = none := rfl

/-- Claim C1, amended: every exchange failure is surfaced by the
transport's `cmd` as a typed result, but `R2::send` unwraps that result —
on failure it panics (terminating the program) instead of returning the
error, and on success it stores the response in `readin`. -/
theorem send_unwraps_cmd_result :
    (∀ (p : R2Pipe) (c : String) (e : PipeError),
      R2Pipe.cmd p c = .error e → ∀ r : R2, r.pipe = p → R2.send r c = none) ∧
    (∀ (p : R2Pipe) (c s : String) (p1 : R2Pipe),
      R2Pipe.cmd p c = .ok (s, p1) → ∀ r : R2, r.pipe = p →
        R2.send r c = some ⟨p1, s⟩) := by
  constructor
  · intro p c e hc r hr
    simp [R2.send, hr, hc]
  · intro p c s p1 hc r hr
    simp [R2.send, hr, hc]

/-- Witness for the amended C1 at a concrete pipe. -/
theorem send_unwraps_cmd_result_witness :
    R2Pipe.cmd ⟨[.ok "hi"]⟩ "i" = .ok ("hi", ⟨[]⟩) ∧
    R2.send ⟨⟨[.ok "hi"]⟩, ""⟩ "i" = some ⟨⟨[]⟩, "hi"⟩ :=
  ⟨rfl, send_unwraps_cmd_result.2 ⟨[.ok "hi"]⟩ "i" "hi" ⟨[]⟩ rfl ⟨⟨[.ok "hi"]⟩, ""⟩ rfl⟩

/-- Claim C2, counterexample: a whitespace-only response consisting of a
single space does not decode to the empty structured document — the
parse fails and `recv_json` panics (`none`). -/
theorem recv_json_space_cex :
    (R2.recv_json ⟨⟨[]⟩, " "⟩).1 = none ∧
    (R2.recv_json ⟨⟨[]⟩, " "⟩).1 ≠ some (Value.obj []) :=
  ⟨rfl, fun h => Option.noConfusion h⟩

/-- Claim C2, amended: every response that is empty or consists only of
newline characters decodes to the empty structured document, and a peer
response of the empty string and of the empty object text yield the
same empty document. -/
theorem recv_json_newline_only_empty :
    (∀ r : R2, r.readin.data.all (fun c => c == '\n') = true →
      (R2.recv_json r).1 = some (Value.obj [])) ∧
    (∀ p1 p2 : R2Pipe,
      (R2.recv_json ⟨p1, ""⟩).1 = some (Value.obj []) ∧
      (R2.recv_json ⟨p2, "\x7b\x7d"⟩).1 = some (Value.obj [])) := by
  constructor
  · intro r hall
    have hf : r.readin.data.filter (fun c => c != '\n') = [] := by
      rw [List.filter_eq_nil_iff]
      intro a ha
      have h1 := List.all_eq_true.mp hall a ha
      simp only [beq_iff_eq] at h1
      simp [h1]
    have hrm : removeNewlines r.readin = "" := by
      simp [removeNewlines, hf]
    show (R2.recv_json r).1 = some (Value.obj [])
    simp only [R2.recv_json, R2.recv, R2.flush, hrm]
    rfl
  · intro p1 p2
    exact ⟨rfl, rfl⟩

/-- Witness for the amended C2 at a newline-only buffer. -/
theorem recv_json_newline_only_empty_witness :
    ("\n\n".data.all (fun c => c == '\n')) = true ∧
    (R2.recv_json ⟨⟨[]⟩, "\n\n"⟩).1 = some (Value.obj []) :=
  ⟨rfl, recv_json_newline_only_empty.1 ⟨⟨[]⟩, "\n\n"⟩ rfl⟩

/-- Claim C3 (code bug): at the failing input — a buffered response of
`not json` — `recv_json` does not return a typed `StructuredError`; the
`.unwrap()` in the source panics, modelled by `none`.  The source's own
comment concedes it should return a `Result`. -/
theorem recv_json_malformed_panics :
    (R2.recv_json ⟨⟨[]⟩, "not json"⟩).1 = none := rfl

/-- Claim C4, counterexample: a failure to deliver the terminal quit
request is not swallowed — `close` forwards it through `send`, whose
unwrap panics (`none`), so `close` fails observably. -/
theorem close_propagates_failure_cex :
    R2.close ⟨⟨[.error .transport]⟩, ""⟩ = none := rfl

/-- Claim C4, amended: `close` only sends the quit request; a delivery
failure is propagated as a panic rather than swallowed; `close` itself
releases no OS resource (it never closes the pipe), and calling it twice
produces no error whenever the pipe accepts both quit requests. -/
theorem close_sends_quit :
    (∀ (r : R2) (e : PipeError),
      R2Pipe.cmd r.pipe "q!" = .error e → R2.close r = none) ∧
    (∀ (r : R2) (s : String) (p1 : R2Pipe),
      R2Pipe.cmd r.pipe "q!" = .ok (s, p1) → R2.close r = some ⟨p1, s⟩) ∧
    (∀ (buf a b : String) (rest : List (Except PipeError String)),
      (R2.close ⟨⟨.ok a :: .ok b :: rest⟩, buf⟩).bind R2.close =
        some ⟨⟨rest⟩, b⟩) := by
  refine ⟨?_, ?_, ?_⟩
  · intro r e hc
    simp [R2.close, R2.send, hc]
  · intro r s p1 hc
    simp [R2.close, R2.send, hc]
  · intro buf a b rest
    rfl

/-- Witness for the amended C4 at a concrete exhausted pipe. -/
theorem close_sends_quit_witness :
    R2Pipe.cmd (⟨[]⟩ : R2Pipe) "q!" = .error .closedChannel ∧
    R2.close ⟨⟨[]⟩, ""⟩ = none :=
  ⟨rfl, close_sends_quit.1 ⟨⟨[]⟩, ""⟩ .closedChannel rfl⟩

/-- Claim C5: with no explicit target path and no usable inherited
session in the ambient configuration, `R2::new` returns the
configuration-error result (and does not reach the `open_pipe!` unwrap,
so no crash occurs regardless of the pipe outcome). -/
theorem new_no_target_no_session (a : AmbientConfig) (op : Option R2Pipe)
    (h : R2Pipe.in_session a = none) :
    R2.new none a op = some (.error "No r2 session open. Please specify path!") := by
  simp [R2.new, h]

/-- Witness for C5 at the empty ambient configuration. -/
theorem new_no_target_no_session_witness :
    R2Pipe.in_session ⟨none, none, none, none⟩ = none ∧
    R2.new none ⟨none, none, none, none⟩ none =
      some (.error "No r2 session open. Please specify path!") :=
  ⟨rfl, new_no_target_no_session ⟨none, none, none, none⟩ none rfl⟩

/-- Streams containing a NUL decode to the bytes before the first NUL. -/
lemma decode_of_mem (s : List Nat) (h : 0 ∈ s) :
    decode s = .ok (s.takeWhile (fun b => b != 0)) := by
  induction s with
  | nil => cases h
  | cons b bs ih =>
    by_cases hb : b = 0
    · subst hb
      simp [decode, List.takeWhile]
    · have hbs : 0 ∈ bs := by
        rcases List.mem_cons.mp h with h0 | h1
        · exact absurd h0.symm hb
        · exact h1
      have hbne : (b != 0) = true := by simp [hb]
      simp [decode, hb, ih hbs, List.takeWhile, hbne, Except.map]

/-- Streams with no NUL anywhere fail with the end-of-file error. -/
lemma decode_of_not_mem (s : List Nat) (h : ¬ 0 ∈ s) :
    decode s = .error .eofBeforeTerminator := by
  induction s with
  | nil => rfl
  | cons b bs ih =>
    simp only [List.mem_cons, not_or] at h
    have hb : ¬ b = 0 := fun e => h.1 e.symm
    simp [decode, hb, ih h.2, Except.map]

/-- A successfully decoded payload never contains the NUL terminator. -/
lemma decode_ok_no_nul (s : List Nat) :
    ∀ p, decode s = .ok p → ¬ 0 ∈ p := by
  induction s with
  | nil => intro p hp; simp [decode] at hp
  | cons b bs ih =>
    intro p hp
    by_cases hb : b = 0
    · subst hb
      simp [decode] at hp
      subst hp
      simp
    · simp only [decode, if_neg hb] at hp
      cases hd : decode bs with
      | error e => rw [hd] at hp; simp [Except.map] at hp
      | ok q =>
        rw [hd] at hp
        simp [Except.map] at hp
        subst hp
        intro hm
        rcases List.mem_cons.mp hm with h0 | h1
        · exact hb h0.symm
        · exact ih q hd h1

/-- Claim C6: frame decoding returns exactly the bytes preceding the
first NUL, discarding the NUL (so a payload never contains the
terminator), and fails with `TransportError` when the stream ends before
any NUL. -/
theorem decode_first_nul_frame :
    (∀ s : List Nat, 0 ∈ s → decode s = .ok (s.takeWhile (fun b => b != 0))) ∧
    (∀ s : List Nat, ¬ 0 ∈ s → decode s = .error .eofBeforeTerminator) ∧
    (∀ (s p : List Nat), decode s = .ok p → ¬ 0 ∈ p) :=
  ⟨decode_of_mem, decode_of_not_mem, decode_ok_no_nul⟩

/-- Witness for C6 at concrete byte streams. -/
theorem decode_first_nul_frame_witness :
    decode [104, 105, 0, 106] = .ok [104, 105] ∧
    decode [104, 105] = .error .eofBeforeTerminator := by
  constructor
  · have h := decode_first_nul_frame.1 [104, 105, 0, 106] (by decide)
    rw [show ([104, 105, 0, 106] : List Nat).takeWhile (fun b => b != 0)
          = [104, 105] from by decide] at h
    exact h
  · exact decode_first_nul_frame.2.1 [104, 105] (by decide)

/-- Claim C7: valid inherited-session keys select the Inherited channel
regardless of any explicit path; otherwise an explicit path selects the
Spawned channel; with neither, selection fails with the configuration
error. -/
theorem select_decision_order :
    (∀ (a : AmbientConfig) (h : ChannelHandles) (ep : Option String),
      inheritedHandles a = some h → select ep a = .ok (.inherited h)) ∧
    (∀ (a : AmbientConfig) (p : String),
      inheritedHandles a = none → select (some p) a = .ok (.spawned p)) ∧
    (∀ a : AmbientConfig,
      inheritedHandles a = none → select none a = .error .noSessionNoTarget) := by
  refine ⟨?_, ?_, ?_⟩
  · intro a h ep hi
    simp [select, hi]
  · intro a p hi
    simp [select, hi]
  · intro a hi
    simp [select, hi]

/-- Witness for C7 at concrete configurations. -/
theorem select_decision_order_witness :
    inheritedHandles ⟨some "3", some "4", none, none⟩ = some (.fds 3 4) ∧
    select (some "/bin/ls") ⟨some "3", some "4", none, none⟩ =
      .ok (.inherited (.fds 3 4)) ∧
    inheritedHandles ⟨none, none, none, none⟩ = none ∧
    select (some "/bin/ls") ⟨none, none, none, none⟩ = .ok (.spawned "/bin/ls") ∧
    select none ⟨none, none, none, none⟩ = .error .noSessionNoTarget :=
  ⟨rfl, select_decision_order.1 ⟨some "3", some "4", none, none⟩ (.fds 3 4)
          (some "/bin/ls") rfl,
   rfl, select_decision_order.2.1 ⟨none, none, none, none⟩ "/bin/ls" rfl,
   select_decision_order.2.2 ⟨none, none, none, none⟩ rfl⟩

/-- Claim C8: `recv` hands back the scratch buffer and consumes it — the
returned state's buffer is empty, so a second `recv` with no intervening
`send` returns the empty string. -/
theorem recv_consumes (r : R2) :
    (R2.recv r).1 = r.readin ∧ ((R2.recv r).2).readin = "" ∧
    (R2.recv (R2.recv r).2).1 = "" :=
  ⟨rfl, rfl, rfl⟩

/-- Claim C9: `recv_json` strips every newline character — embedded or
trailing — from the buffered text before parsing, so two buffered
responses that agree after newline removal decode identically. -/
theorem recv_json_strips_newlines :
    (∀ s : String, ¬ '\n' ∈ (removeNewlines s).data) ∧
    (∀ r1 r2 : R2, removeNewlines r1.readin = removeNewlines r2.readin →
      (R2.recv_json r1).1 = (R2.recv_json r2).1) := by
  constructor
  · intro s hm
    simp only [removeNewlines] at hm
    have := (List.mem_filter.mp hm).2
    simp at this
  · intro r1 r2 h
    simp only [R2.recv_json, R2.recv, R2.flush]
    rw [h]

/-- Witness for C9: a response with an embedded newline and one without
decode to the same document. -/
theorem recv_json_strips_newlines_witness :
    removeNewlines "\x7b\n\x7d" = removeNewlines "\x7b\x7d" ∧
    (R2.recv_json ⟨⟨[]⟩, "\x7b\n\x7d"⟩).1 = (R2.recv_json ⟨⟨[]⟩, "\x7b\x7d"⟩).1 :=
  ⟨rfl, recv_json_strips_newlines.2 ⟨⟨[]⟩, "\x7b\n\x7d"⟩ ⟨⟨[]⟩, "\x7b\x7d"⟩ rfl⟩

/-- Claim C10: a failed locals query never propagates out of `fn_list` as
its result — the affected entry's `locals` is set to `Some` of the empty
list and the loop continues; and when `fn_list` does return an error it
is exactly the parse error of the function-list JSON itself. -/
theorem fn_list_swallows_locals_failure :
    (∀ (f : FunctionInfo) (fs : List FunctionInfo) (r r1 : R2) (off : Nat)
        (e : ParseError),
      f.offset = some off →
      r.locals_of off = some (.error e, r1) →
      fillLocals (f :: fs) r =
        (fillLocals fs r1).map
          (fun q => ({ f with locals := some [] } :: q.1, q.2))) ∧
    (∀ (r r2 : R2) (e : ParseError),
      R2.fn_list r = some (.error e, r2) →
      ∃ r1 : R2, r.send "aflj" = some r1 ∧
        parseFunctionInfoList (R2.recv r1).1 = .error e) := by
  constructor
  · intro f fs r r1 off e hoff hloc
    simp only [fillLocals, hoff, hloc]
    cases hfs : fillLocals fs r1 with
    | none => simp [Option.map]
    | some q => simp [Option.map]
  · intro r r2 e hfn
    simp only [R2.fn_list] at hfn
    cases hs : r.send "aflj" with
    | none => rw [hs] at hfn; cases hfn
    | some r1 =>
      rw [hs] at hfn
      dsimp only at hfn
      refine ⟨r1, rfl, ?_⟩
      cases hp : parseFunctionInfoList (R2.recv r1).1 with
      | error e1 =>
        rw [hp] at hfn
      | ok fins =>
        rw [hp] at hfn
        dsimp only at hfn
        cases hfl : fillLocals (fins.map FunctionInfo.fromInfo) (R2.recv r1).2 with
        | none => rw [hfl] at hfn; cases hfn
        | some q =>
          obtain ⟨fns, rr⟩ := q
          rw [hfl] at hfn
          simp at hfn

/-- Concrete function entry used by the C10 witness. -/
def sampleFn : FunctionInfo :=
  ⟨none, none, none, none, none, none, some 5, none, none, none, none⟩

/-- Concrete session used by the C10 witness: the peer answers the
locals query with unparseable text. -/
def sampleSession : R2 := ⟨⟨[.ok "oops"]⟩, ""⟩

/-- Witness for C10: a locals query whose response fails to parse leaves
the entry with `locals = Some []`. -/
theorem fn_list_swallows_locals_failure_witness :
    sampleFn.offset = some 5 ∧
    R2.locals_of sampleSession 5 = some (.error .invalid, ⟨⟨[]⟩, ""⟩) ∧
    fillLocals [sampleFn] sampleSession =
      (fillLocals [] ⟨⟨[]⟩, ""⟩).map
        (fun q => ({ sampleFn with locals := some [] } :: q.1, q.2)) :=
  ⟨rfl, rfl,
   fn_list_swallows_locals_failure.1 sampleFn [] sampleSession ⟨⟨[]⟩, ""⟩ 5
     .invalid rfl rfl⟩

end R2rs
